import Mathlib

/-!
Verification of `src/create_request.py` against its specification.

The script is a straight-line pipeline: it reads `test_file.txt` in binary
mode, computes the SHA-256 hex digest and byte length of the content,
base64-encodes the content, assembles a six-field metadata dictionary,
JSON-encodes that dictionary into a string, embeds the string inside a
GraphQL request object, and writes the outer object as JSON to
`upload_request.json`.

The embedding below models bytes as `Nat` values (< 256 for real file
content), file contents as `List Nat`, and the Python runtime pieces the
script calls (`hashlib.sha256(...).hexdigest()`, `base64.b64encode`,
`json.dumps` / `json.dump` with their default settings) as executable Lean
functions, so that concrete scenarios evaluate by `decide` / `rfl`.
-/

/-! ### SHA-256 (FIPS 180-4), modelling `hashlib.sha256(content).hexdigest()` -/

/-- The modulus 2^32 of all SHA-256 word arithmetic. -/
def M32 : Nat := 4294967296

/-- Right-rotation of a 32-bit word by `k` bits (for `x < 2^32`). -/
def rotr (k x : Nat) : Nat := (x / 2 ^ k + x % 2 ^ k * 2 ^ (32 - k)) % M32

/-- Logical right shift. -/
def shr (k x : Nat) : Nat := x / 2 ^ k

/-- Bitwise complement within 32 bits. -/
def compl32 (x : Nat) : Nat := 4294967295 - x % M32

/-- SHA-256 `Ch(e, f, g)`. -/
def ch (e f g : Nat) : Nat := (e &&& f) ^^^ (compl32 e &&& g)

/-- SHA-256 `Maj(a, b, c)`. -/
def maj (a b c : Nat) : Nat := (a &&& b) ^^^ (a &&& c) ^^^ (b &&& c)

/-- SHA-256 `Σ0`. -/
def bigSigma0 (x : Nat) : Nat := rotr 2 x ^^^ rotr 13 x ^^^ rotr 22 x

/-- SHA-256 `Σ1`. -/
def bigSigma1 (x : Nat) : Nat := rotr 6 x ^^^ rotr 11 x ^^^ rotr 25 x

/-- SHA-256 `σ0`. -/
def smallSigma0 (x : Nat) : Nat := rotr 7 x ^^^ rotr 18 x ^^^ shr 3 x

/-- SHA-256 `σ1`. -/
def smallSigma1 (x : Nat) : Nat := rotr 17 x ^^^ rotr 19 x ^^^ shr 10 x

/-- The eight 32-bit working variables / hash state. -/
structure HashState where
  a : Nat
  b : Nat
  c : Nat
  d : Nat
  e : Nat
  f : Nat
  g : Nat
  h : Nat
deriving DecidableEq

/-- The SHA-256 initial hash value H(0), in decimal. -/
def initH : HashState :=
  ⟨1779033703, 3144134277, 1013904242, 2773480762,
   1359893119, 2600822924, 528734635, 1541459225⟩

/-- The 64 SHA-256 round constants K, in decimal. -/
def K256 : List Nat :=
  [1116352408, 1899447441, 3049323471, 3921009573, 961987163,
   1508970993, 2453635748, 2870763221, 3624381080, 310598401,
   607225278, 1426881987, 1925078388, 2162078206, 2614888103,
   3248222580, 3835390401, 4022224774, 264347078, 604807628,
   770255983, 1249150122, 1555081692, 1996064986, 2554220882,
   2821834349, 2952996808, 3210313671, 3336571891, 3584528711,
   113926993, 338241895, 666307205, 773529912, 1294757372,
   1396182291, 1695183700, 1986661051, 2177026350, 2456956037,
   2730485921, 2820302411, 3259730800, 3345764771, 3516065817,
   3600352804, 4094571909, 275423344, 430227734, 506948616,
   659060556, 883997877, 958139571, 1322822218, 1537002063,
   1747873779, 1955562222, 2024104815, 2227730452, 2361852424,
   2428436474, 2756734187, 3204031479, 3329325298]

/-- Big-endian byte rendering of `v` on `n` bytes. -/
def beBytes : Nat → Nat → List Nat
  | 0, _ => []
  | n + 1, v => beBytes n (v / 256) ++ [v % 256]

/-- SHA-256 padding: append `0x80`, zeros to 56 mod 64, then the bit length
on 8 big-endian bytes. -/
def padBytes (msg : List Nat) : List Nat :=
  msg ++ [128] ++ List.replicate ((119 - msg.length % 64) % 64) 0 ++ beBytes 8 (msg.length * 8)

/-- Group bytes into big-endian 32-bit words. -/
def toWords : List Nat → List Nat
  | b0 :: b1 :: b2 :: b3 :: rest =>
      (b0 * 16777216 + b1 * 65536 + b2 * 256 + b3) :: toWords rest
  | _ => []

/-- Extend the 16 block words to the 64-entry message schedule; `n` counts
the remaining entries to generate. -/
def extendW : List Nat → Nat → List Nat
  | ws, 0 => ws
  | ws, n + 1 =>
      let i := ws.length
      extendW (ws ++ [(smallSigma1 (ws.getD (i - 2) 0) + ws.getD (i - 7) 0 +
                       smallSigma0 (ws.getD (i - 15) 0) + ws.getD (i - 16) 0) % M32]) n

/-- One SHA-256 round, consuming one (K, W) pair. -/
def round256 (s : HashState) (kw : Nat × Nat) : HashState :=
  let t1 := (s.h + bigSigma1 s.e + ch s.e s.f s.g + kw.1 + kw.2) % M32
  let t2 := (bigSigma0 s.a + maj s.a s.b s.c) % M32
  ⟨(t1 + t2) % M32, s.a, s.b, s.c, (s.d + t1) % M32, s.e, s.f, s.g⟩

/-- Compress one 64-byte block into the running hash state. -/
def compress (s : HashState) (block : List Nat) : HashState :=
  let w := extendW (toWords block) 48
  let t := (K256.zip w).foldl round256 s
  ⟨(s.a + t.a) % M32, (s.b + t.b) % M32, (s.c + t.c) % M32, (s.d + t.d) % M32,
   (s.e + t.e) % M32, (s.f + t.f) % M32, (s.g + t.g) % M32, (s.h + t.h) % M32⟩

/-- Split a byte list into 64-byte blocks; `fuel ≥ l.length` keeps the
recursion structural so that concrete runs reduce in the kernel. -/
def toBlocks : Nat → List Nat → List (List Nat)
  | _, [] => []
  | 0, _ => []
  | fuel + 1, l => l.take 64 :: toBlocks fuel (l.drop 64)

/-- Serialize the final hash state to 32 big-endian bytes. -/
def digestBytes (s : HashState) : List Nat :=
  beBytes 4 s.a ++ beBytes 4 s.b ++ beBytes 4 s.c ++ beBytes 4 s.d ++
  beBytes 4 s.e ++ beBytes 4 s.f ++ beBytes 4 s.g ++ beBytes 4 s.h

/-- SHA-256 digest of a byte list, as 32 bytes. -/
def sha256bytes (msg : List Nat) : List Nat :=
  digestBytes ((toBlocks (padBytes msg).length (padBytes msg)).foldl compress initH)

/-- The lowercase hex digit characters. -/
def hexDigitChars : List Char := "0123456789abcdef".toList

/-- The lowercase hex character for a nibble. -/
def hexDigit (n : Nat) : Char := hexDigitChars.getD n '0'

/-- Two lowercase hex characters per byte, in order. -/
def hexChars : List Nat → List Char
  | [] => []
  | b :: rest => hexDigit (b / 16) :: hexDigit (b % 16) :: hexChars rest

/-- Python's `hashlib.sha256(msg).hexdigest()`: the digest as a lowercase
hex string. -/
def sha256hex (msg : List Nat) : String := String.mk (hexChars (sha256bytes msg))

/-! ### Base64, modelling `base64.b64encode(content).decode()` -/

/-- The standard base64 alphabet, in index order. -/
def b64Alphabet : List Char :=
  "ABCDEFGHIJKLMNOPQRSTUVWXYZabcdefghijklmnopqrstuvwxyz0123456789+/".toList

/-- The base64 character of a 6-bit value. -/
def b64char (n : Nat) : Char := b64Alphabet.getD n 'A'

/-- The 6-bit value of a base64 character. -/
def b64val (c : Char) : Nat := b64Alphabet.indexOf c

/-- Standard base64 encoding with `=` padding, three input bytes per four
output characters. -/
def b64encChars : List Nat → List Char
  | [] => []
  | [a] => [b64char (a / 4), b64char (a % 4 * 16), '=', '=']
  | [a, b] => [b64char (a / 4), b64char (a % 4 * 16 + b / 16), b64char (b % 16 * 4), '=']
  | a :: b :: c :: rest =>
      b64char (a / 4) :: b64char (a % 4 * 16 + b / 16) ::
      b64char (b % 16 * 4 + c / 64) :: b64char (c % 64) :: b64encChars rest

/-- Python's `base64.b64encode(content).decode()`: the base64 text of a
byte list. -/
def b64encode (content : List Nat) : String := String.mk (b64encChars content)

/-- Base64 decoding of well-formed input, the inverse used to state the
round-trip invariant; `=` padding ends the input. -/
def b64decChars : List Char → List Nat
  | c1 :: c2 :: c3 :: c4 :: rest =>
      if c3 = '=' then [b64val c1 * 4 + b64val c2 / 16]
      else if c4 = '=' then
        [b64val c1 * 4 + b64val c2 / 16, b64val c2 % 16 * 16 + b64val c3 / 4]
      else
        (b64val c1 * 4 + b64val c2 / 16) :: (b64val c2 % 16 * 16 + b64val c3 / 4) ::
        (b64val c3 % 4 * 64 + b64val c4) :: b64decChars rest
  | _ => []

/-- Base64 decoding of a string. -/
def b64decode (s : String) : List Nat := b64decChars s.toList

/-! ### The metadata object (`data` dict, lines 15–22 of the script) -/

/-- The `data` dictionary the script builds: six fields, in insertion
order. -/
structure FileMetadata where
  filename : String
  content_hash : String
  size_bytes : Nat
  mime_type : String
  encrypted_key : String
  file_data : String
deriving DecidableEq

/-- The hardcoded input path of line 6, also used as the `filename` field. -/
def inputPath : String := "test_file.txt"

/-- The hardcoded `encrypted_key` placeholder of line 20. -/
def encryptedKeyConst : String := "dGVzdGtleQ=="

/-- The hardcoded `mime_type` of line 19. -/
def mimeTypeConst : String := "text/plain"

/-- Lines 10–22: hash, size and base64 payload computed from the file
content, plus the fixed constants. -/
def buildMetadata (content : List Nat) : FileMetadata :=
  { filename := inputPath
    content_hash := sha256hex content
    size_bytes := content.length
    mime_type := mimeTypeConst
    encrypted_key := encryptedKeyConst
    file_data := b64encode content }

/-! ### JSON values and `json.dumps` (default settings) -/

/-- JSON values, restricted to the shapes this script produces: strings,
non-negative integers, and objects with ordered fields. -/
inductive Json where
  | str : String → Json
  | num : Nat → Json
  | obj : List (String × Json) → Json

/-- JSON string escaping as Python's `json.dumps` performs it on the
characters this script can emit: `"` and `\` get a backslash escape, the
named control characters their short forms, other control characters a
`\u00XX` form, and everything else (here always printable ASCII) passes
through. -/
def escapeChar (c : Char) : List Char :=
  if c = '"' then ['\\', '"']
  else if c = '\\' then ['\\', '\\']
  else if c = '\n' then ['\\', 'n']
  else if c = '\t' then ['\\', 't']
  else if c = '\r' then ['\\', 'r']
  else if c = '\x08' then ['\\', 'b']
  else if c = '\x0c' then ['\\', 'f']
  else if c.toNat < 32 then
    ['\\', 'u', '0', '0', hexDigit (c.toNat / 16), hexDigit (c.toNat % 16)]
  else [c]

/-- Escape every character of a string and wrap it in quotes. -/
def dumpString (s : String) : String :=
  String.mk ('"' :: s.toList.foldr (fun c acc => escapeChar c ++ acc) ['"'])

/-- Decimal digit characters of `n`, most significant first; `fuel ≥ n`
keeps the recursion structural. -/
def decChars : Nat → Nat → List Char
  | 0, _ => []
  | fuel + 1, n => if n = 0 then [] else decChars fuel (n / 10) ++ [hexDigit (n % 10)]

/-- Python's rendering of a non-negative `int` in JSON. -/
def dumpNat (n : Nat) : String := if n = 0 then "0" else String.mk (decChars n n)

/-- Python's `json.dumps` with default settings: separators `", "` and `": "`, no
extra whitespace.  `fuel` bounds the nesting depth so the recursion is
structural; every call below passes a fuel larger than the fixed depth of
the document it serializes, so the bound is never hit. -/
def dumpsJ : Nat → Json → String
  | 0, _ => ""
  | _, .str s => dumpString s
  | _, .num n => dumpNat n
  | fuel + 1, .obj kvs =>
      "\x7b" ++
      String.intercalate ", "
        (kvs.map (fun kv => dumpString kv.1 ++ ": " ++ dumpsJ fuel kv.2)) ++
      "\x7d"

/-- The key list of a JSON object. -/
def jsonKeys : Json → List String
  | .obj kvs => kvs.map Prod.fst
  | _ => []

/-- Field lookup in a JSON object. -/
def jsonGet : Json → String → Option Json
  | .obj kvs, k => (kvs.find? (fun kv => kv.1 == k)).map Prod.snd
  | _, _ => none

/-! ### The request document (lines 24–34 of the script) -/

/-- The fixed GraphQL mutation text of line 25. -/
def queryText : String :=
  "mutation UploadFileFromMap($input: UploadFileFromMapInput!) \x7b uploadFileFromMap(input: $input) \x7b id filename mime_type file \x7b size_bytes \x7d \x7d \x7d"

/-- The metadata dictionary as a JSON object, fields in the script's
insertion order. -/
def metaJson (content : List Nat) : Json :=
  .obj [("filename", .str (buildMetadata content).filename),
        ("content_hash", .str (buildMetadata content).content_hash),
        ("size_bytes", .num (buildMetadata content).size_bytes),
        ("mime_type", .str (buildMetadata content).mime_type),
        ("encrypted_key", .str (buildMetadata content).encrypted_key),
        ("file_data", .str (buildMetadata content).file_data)]

/-- Line 28: `json.dumps(data)`, the metadata serialized to a string. -/
def dataString (content : List Nat) : String := dumpsJ 2 (metaJson content)

/-- Lines 24–31: the outer request object. -/
def requestJson (content : List Nat) : Json :=
  .obj [("query", .str queryText),
        ("variables", .obj [("input", .obj [("data", .str (dataString content))])])]

/-- Lines 33–34: `json.dump(request, f)`, the text written to
`upload_request.json`. -/
def outputString (content : List Nat) : String := dumpsJ 4 (requestJson content)

/-! ### The script as a filesystem transition

The script is straight-line: open the input (line 6) — a missing file
raises `FileNotFoundError` there, before anything else runs — then compute
the payload, then open and write the output (lines 33–34). -/

/-- The filesystem as the script sees it: the input file's bytes if it
exists, and the output file's text if it exists. -/
structure FS where
  input : Option (List Nat)
  output : Option String
deriving DecidableEq

/-- The abort cause the script can hit at line 6. -/
inductive ScriptError where
  | fileNotFound
deriving DecidableEq

/-- File-open events, in the order the script performs them. -/
inductive Event where
  | openInput
  | openOutput
deriving DecidableEq

/-- One run of the script: the events it performed, the filesystem after,
and the error if it aborted.  A missing input file fails at the very first
operation, so no output open ever happens and the filesystem is
untouched. -/
def runScript (fs : FS) : List Event × FS × Option ScriptError :=
  match fs.input with
  | none => ([.openInput], fs, some .fileNotFound)
  | some content =>
      ([.openInput, .openOutput], { fs with output := some (outputString content) }, none)

/-! ### Helper lemmas -/

theorem beBytes_length (n v : Nat) : (beBytes n v).length = n := by
  induction n generalizing v with
  | zero => rfl
  | succ k ih => simp [beBytes, ih]

theorem beBytes_lt (n v : Nat) : ∀ b ∈ beBytes n v, b < 256 := by
  induction n generalizing v with
  | zero => simp [beBytes]
  | succ k ih =>
      intro b hb
      simp only [beBytes, List.mem_append, List.mem_singleton] at hb
      rcases hb with hb | hb
      · exact ih _ _ hb
      · omega

theorem digestBytes_length (s : HashState) : (digestBytes s).length = 32 := by
  simp [digestBytes, beBytes_length]

theorem digestBytes_lt (s : HashState) : ∀ b ∈ digestBytes s, b < 256 := by
  intro b hb
  simp only [digestBytes, List.mem_append] at hb
  rcases hb with ((((((hb | hb) | hb) | hb) | hb) | hb) | hb) | hb <;>
    exact beBytes_lt _ _ _ hb

theorem sha256bytes_length (msg : List Nat) : (sha256bytes msg).length = 32 :=
  digestBytes_length _

theorem sha256bytes_lt (msg : List Nat) : ∀ b ∈ sha256bytes msg, b < 256 :=
  digestBytes_lt _

theorem hexChars_length (bs : List Nat) : (hexChars bs).length = 2 * bs.length := by
  induction bs with
  | nil => rfl
  | cons b rest ih => simp [hexChars, ih]; omega

theorem hexDigit_mem : ∀ n, n < 16 → hexDigit n ∈ hexDigitChars := by decide

theorem hexChars_mem (bs : List Nat) (hbs : ∀ b ∈ bs, b < 256) :
    ∀ c ∈ hexChars bs, c ∈ hexDigitChars := by
  induction bs with
  | nil => simp [hexChars]
  | cons b rest ih =>
      intro c hc
      have hb : b < 256 := hbs b (by simp)
      simp only [hexChars, List.mem_cons] at hc
      rcases hc with hc | hc | hc
      · exact hc ▸ hexDigit_mem _ (by omega)
      · exact hc ▸ hexDigit_mem _ (by omega)
      · exact ih (fun x hx => hbs x (by simp [hx])) c hc

theorem b64val_b64char : ∀ n, n < 64 → b64val (b64char n) = n := by decide

theorem b64char_ne_pad : ∀ n, n < 64 → b64char n ≠ '=' := by decide

/-- Decoding inverts encoding on genuine byte lists. -/
theorem b64_decode_encode :
    ∀ bs : List Nat, (∀ b ∈ bs, b < 256) → b64decChars (b64encChars bs) = bs
  | [], _ => rfl
  | [a], h => by
      have ha : a < 256 := h a (by simp)
      have h1 : a / 4 < 64 := by omega
      have h2 : a % 4 * 16 < 64 := by omega
      simp only [b64encChars, b64decChars, if_pos rfl, if_true,
        b64val_b64char _ h1, b64val_b64char _ h2]
      simp only [List.cons.injEq, and_true]
      omega
  | [a, b], h => by
      have ha : a < 256 := h a (by simp)
      have hb : b < 256 := h b (by simp)
      have h1 : a / 4 < 64 := by omega
      have h2 : a % 4 * 16 + b / 16 < 64 := by omega
      have h3 : b % 16 * 4 < 64 := by omega
      simp only [b64encChars, b64decChars, if_neg (b64char_ne_pad _ h3), if_pos rfl,
        if_true, b64val_b64char _ h1, b64val_b64char _ h2, b64val_b64char _ h3]
      simp only [List.cons.injEq, and_true]
      omega
  | a :: b :: c :: rest, h => by
      have ha : a < 256 := h a (by simp)
      have hb : b < 256 := h b (by simp)
      have hc : c < 256 := h c (by simp)
      have h1 : a / 4 < 64 := by omega
      have h2 : a % 4 * 16 + b / 16 < 64 := by omega
      have h3 : b % 16 * 4 + c / 64 < 64 := by omega
      have h4 : c % 64 < 64 := by omega
      have ih := b64_decode_encode rest (fun x hx => h x (by simp [hx]))
      simp only [b64encChars, b64decChars, if_neg (b64char_ne_pad _ h3),
        if_neg (b64char_ne_pad _ h4), if_true, b64val_b64char _ h1, b64val_b64char _ h2,
        b64val_b64char _ h3, b64val_b64char _ h4, ih]
      simp only [List.cons.injEq, and_true]
      omega

/-- The serialization fuel in `dataString` is not a truncation: any larger
fuel serializes the metadata object identically. -/
theorem dumpsJ_metaJson_fuel (content : List Nat) :
    dumpsJ 5 (metaJson content) = dumpsJ 2 (metaJson content) := rfl

/-- The serialization fuel in `outputString` is not a truncation: any larger
fuel serializes the request object identically. -/
theorem dumpsJ_requestJson_fuel (content : List Nat) :
    dumpsJ 7 (requestJson content) = dumpsJ 4 (requestJson content) := rfl

/-- Running the script on a present input file: both opens happen, the
output file receives the serialized request, and no error is raised. -/
theorem runScript_some (fs : FS) (c : List Nat) (h : fs.input = some c) :
    runScript fs = ([Event.openInput, Event.openOutput],
      { fs with output := some (outputString c) }, none) := by
  unfold runScript; rw [h]

/-! ### The claims -/

/-- C1: For every input file with byte content B, the `content_hash` field of
the produced FileMetadata equals the SHA-256 digest of B rendered as a
lowercase hexadecimal string of exactly 64 characters. -/
theorem content_hash_spec (content : List Nat) :
    (buildMetadata content).content_hash = sha256hex content ∧
    (buildMetadata content).content_hash.length = 64 ∧
    ∀ c ∈ (buildMetadata content).content_hash.toList, c ∈ hexDigitChars := by
  refine ⟨rfl, ?_, ?_⟩
  · show (String.mk (hexChars (sha256bytes content))).length = 64
    simp [String.length, hexChars_length, sha256bytes_length]
  · intro c hc
    exact hexChars_mem _ (sha256bytes_lt content) c hc

/-- C2: For every input file with byte content B, the `size_bytes` field of
the produced FileMetadata equals the exact byte length of B. -/
theorem size_bytes_spec (content : List Nat) :
    (buildMetadata content).size_bytes = content.length := rfl

/-- C3: For every input file with byte content B, decoding the produced
`file_data` field from base64 yields exactly B, so `size_bytes` equals the
byte length of the decoded `file_data` and `content_hash` equals the SHA-256
digest of the decoded `file_data`. -/
theorem file_data_roundtrip_spec (content : List Nat) (h : ∀ b ∈ content, b < 256) :
    b64decode (buildMetadata content).file_data = content ∧
    (buildMetadata content).size_bytes =
      (b64decode (buildMetadata content).file_data).length ∧
    (buildMetadata content).content_hash =
      sha256hex (b64decode (buildMetadata content).file_data) := by
  have hdec : b64decode (buildMetadata content).file_data = content :=
    b64_decode_encode content h
  exact ⟨hdec, by rw [hdec]; rfl, by rw [hdec]; rfl⟩

theorem file_data_roundtrip_witness :
    (∀ b ∈ [104, 101, 108, 108, 111], b < 256) ∧
    (b64decode (buildMetadata [104, 101, 108, 108, 111]).file_data =
        [104, 101, 108, 108, 111] ∧
      (buildMetadata [104, 101, 108, 108, 111]).size_bytes =
        (b64decode (buildMetadata [104, 101, 108, 108, 111]).file_data).length ∧
      (buildMetadata [104, 101, 108, 108, 111]).content_hash =
        sha256hex (b64decode (buildMetadata [104, 101, 108, 108, 111]).file_data)) :=
  ⟨by decide, file_data_roundtrip_spec [104, 101, 108, 108, 111] (by decide)⟩

/-- C4: For every input file, the written output document is the
serialization of a JSON object with exactly the two top-level keys `query`
(a string) and `variables` (an object containing `input` containing `data`),
and the `data` value is a string that is itself the serialization of a JSON
object with exactly the six metadata keys. -/
theorem output_document_structure_spec (content : List Nat) :
    outputString content = dumpsJ 4 (requestJson content) ∧
    jsonKeys (requestJson content) = ["query", "variables"] ∧
    jsonGet (requestJson content) "query" = some (.str queryText) ∧
    ((jsonGet (requestJson content) "variables").bind fun v =>
      (jsonGet v "input").bind fun i => jsonGet i "data") =
        some (.str (dataString content)) ∧
    dataString content = dumpsJ 2 (metaJson content) ∧
    jsonKeys (metaJson content) =
      ["filename", "content_hash", "size_bytes", "mime_type",
       "encrypted_key", "file_data"] :=
  ⟨rfl, rfl, rfl, rfl, rfl, rfl⟩

/-- C5: If the input file does not exist, the run aborts with a
file-not-found failure, the filesystem (in particular the output file) is
unchanged, and the output path is never opened. -/
theorem missing_input_aborts_spec (fs : FS) (h : fs.input = none) :
    runScript fs = ([Event.openInput], fs, some ScriptError.fileNotFound) ∧
    (runScript fs).2.1.output = fs.output ∧
    Event.openOutput ∉ (runScript fs).1 := by
  have hr : runScript fs = ([Event.openInput], fs, some ScriptError.fileNotFound) := by
    unfold runScript; rw [h]
  refine ⟨hr, by rw [hr], ?_⟩
  rw [hr]
  show Event.openOutput ∉ [Event.openInput]
  decide

theorem missing_input_aborts_witness :
    (FS.mk none none).input = none ∧
    (runScript (FS.mk none none) =
        ([Event.openInput], FS.mk none none, some ScriptError.fileNotFound) ∧
      (runScript (FS.mk none none)).2.1.output = (FS.mk none none).output ∧
      Event.openOutput ∉ (runScript (FS.mk none none)).1) :=
  ⟨rfl, missing_input_aborts_spec (FS.mk none none) rfl⟩

/-- C6: The output is a deterministic function of the input file's bytes
alone, and running the builder twice on an unchanged input produces the
identical output file text. -/
theorem deterministic_idempotent_spec (fs fs' : FS) (c : List Nat)
    (h : fs.input = some c) (h' : fs'.input = some c) :
    (runScript fs).2.1.output = some (outputString c) ∧
    (runScript fs).2.1.output = (runScript fs').2.1.output ∧
    (runScript (runScript fs).2.1).2.1.output = (runScript fs).2.1.output := by
  have r1 := runScript_some fs c h
  have r2 := runScript_some fs' c h'
  refine ⟨by rw [r1], by rw [r1, r2], ?_⟩
  rw [r1]
  rw [runScript_some { fs with output := some (outputString c) } c h]

theorem deterministic_idempotent_witness :
    (FS.mk (some [104]) none).input = some [104] ∧
    ((runScript (FS.mk (some [104]) none)).2.1.output = some (outputString [104]) ∧
      (runScript (FS.mk (some [104]) none)).2.1.output =
        (runScript (FS.mk (some [104]) none)).2.1.output ∧
      (runScript (runScript (FS.mk (some [104]) none)).2.1).2.1.output =
        (runScript (FS.mk (some [104]) none)).2.1.output) :=
  ⟨rfl, deterministic_idempotent_spec (FS.mk (some [104]) none)
    (FS.mk (some [104]) none) [104] rfl rfl⟩

/-- C7: For the input file whose content is the 5 ASCII bytes "hello", the
produced metadata has `size_bytes` 5, the known SHA-256 digest of "hello",
and `file_data` "aGVsbG8=". -/
theorem hello_scenario_spec :
    (buildMetadata [104, 101, 108, 108, 111]).size_bytes = 5 ∧
    (buildMetadata [104, 101, 108, 108, 111]).content_hash =
      "2cf24dba5fb0a30e26e83b2ac5b9e29e1b161e5c1fa7425e73043362938b9824" ∧
    (buildMetadata [104, 101, 108, 108, 111]).file_data = "aGVsbG8=" := by
  decide

/-- C8: For the empty input file, the produced metadata has `size_bytes` 0,
the known SHA-256 digest of the empty message, and an empty `file_data`. -/
theorem empty_scenario_spec :
    (buildMetadata []).size_bytes = 0 ∧
    (buildMetadata []).content_hash =
      "e3b0c44298fc1c149afbf4c8996fb92427ae41e4649b934ca495991b7852b855" ∧
    (buildMetadata []).file_data = "" := by
  decide

/-- C9: For every input file, `mime_type` is the fixed constant
"text/plain" and `encrypted_key` is the fixed placeholder "dGVzdGtleQ==",
independent of the file content. -/
theorem fixed_constants_spec (content : List Nat) :
    (buildMetadata content).mime_type = "text/plain" ∧
    (buildMetadata content).encrypted_key = "dGVzdGtleQ==" ∧
    ∀ other : List Nat,
      (buildMetadata content).mime_type = (buildMetadata other).mime_type ∧
      (buildMetadata content).encrypted_key = (buildMetadata other).encrypted_key :=
  ⟨rfl, rfl, fun _ => ⟨rfl, rfl⟩⟩

/-- C10: For every input file, the `filename` field is the fixed constant
"test_file.txt", identical to the hardcoded input path, and independent of
the file content. -/
theorem filename_constant_spec (content : List Nat) :
    (buildMetadata content).filename = "test_file.txt" ∧
    (buildMetadata content).filename = inputPath ∧
    ∀ other : List Nat,
      (buildMetadata content).filename = (buildMetadata other).filename :=
  ⟨rfl, rfl, fun _ => rfl⟩

example : sha256hex [104, 101, 108, 108, 111] =
    "2cf24dba5fb0a30e26e83b2ac5b9e29e1b161e5c1fa7425e73043362938b9824" := by decide

example : sha256hex [] =
    "e3b0c44298fc1c149afbf4c8996fb92427ae41e4649b934ca495991b7852b855" := by decide

example : b64encode [104, 101, 108, 108, 111] = "aGVsbG8=" := by decide
example : b64decode "aGVsbG8=" = [104, 101, 108, 108, 111] := by decide
example : b64decode encryptedKeyConst = [116, 101, 115, 116, 107, 101, 121] := by decide
example : dumpNat 507 = "507" := by decide
set_option maxRecDepth 8192 in
example : dataString [] =
    "\x7b\"filename\": \"test_file.txt\", \"content_hash\": \"e3b0c44298fc1c149afbf4c8996fb92427ae41e4649b934ca495991b7852b855\", \"size_bytes\": 0, \"mime_type\": \"text/plain\", \"encrypted_key\": \"dGVzdGtleQ==\", \"file_data\": \"\"\x7d" := by decide
